import Mathlib

/-!
Shallow embedding of the ledger / verification core of the
Lord-devine-empire repository (src/server/storage.ts: the
`DatabaseStorage` methods together with the Express route handlers
`POST /api/marketplace/:id/purchase`, `POST /api/verification/purchase`,
`POST /api/admin/gift-money`, and the sweep
`DatabaseStorage.checkAndExpireVerifications`).

Modelling conventions:
* Monetary values are stored in the database as `decimal(_, 2)` strings and
  manipulated through `parseFloat` / `.toFixed(2)`.  We model a monetary
  value as a rational number and `.toFixed(2)` as rounding to the nearest
  multiple of 1/100 (ties broken upward, which is what ECMAScript's
  `Number.prototype.toFixed` specifies: the larger candidate is chosen on a
  tie).  Binary floating-point representation error is out of scope.
* `new Date()` timestamps are modelled as integers supplied by an
  environment value `Env.now`; the JavaScript expression
  `d.setMonth(d.getMonth() + 1)` (one calendar month later, with JS
  overflow semantics) is modelled by the abstract strictly-underspecified
  function `Env.addOneMonth`.
* Row ids are strings.  A drizzle `select ... where eq(id, x)` returning
  the first row is `List.find?`; an `update ... where eq(id, x)` maps the
  update over every matching row; an `insert` appends.
* The drizzle `where` clause of the second UPDATE in
  `checkAndExpireVerifications` compares a nullable column with the SQL
  literal `NULL` (`eq(users.verificationGrantedBy, sql`NULL`)` compiles to
  `"verification_granted_by" = NULL`).  SQL comparisons are three-valued:
  any comparison with NULL yields NULL, and a row is updated only when the
  whole WHERE clause evaluates to TRUE.  We model this with
  `Option Bool` (NULL = `none`) and Kleene conjunction.
* Side tables not mentioned by any analysed property (notifications,
  achievements, sessions, chat) are omitted; the handlers' writes to them
  are independent of balances, purchases, payments and gifts.
-/

/-- A monetary value (`decimal` column / JS number). -/
abbrev Money := ℚ

/-- ECMAScript `x.toFixed(2)` (re-parsed with `parseFloat`): the multiple of
1/100 nearest to `x`, larger candidate on ties. -/
def toFixed2 (q : Money) : Money :=
  (((q * 100 + 1 / 2).floor : ℤ) : ℚ) / 100

/-- `q` is exactly representable with two decimal places
(an integer number of currency minor units). -/
def isCents (q : Money) : Prop := (q * 100).den = 1

instance (q : Money) : Decidable (isCents q) := by
  unfold isCents; infer_instance

/-- A row of the `users` table (the fields the core touches). -/
structure Account where
  id : String
  balance : Money
  hasInfiniteBalance : Bool
  totalEarnings : Money
  isVerified : Bool
  verifiedAt : Option Int
  verificationExpiry : Option Int
  verificationGrantedBy : Option String
deriving Repr, DecidableEq

/-- A row of the `marketplace_listings` table (the fields the purchase
flow touches). -/
structure MarketplaceListing where
  id : String
  sellerId : String
  price : Money
  downloads : Int
deriving Repr, DecidableEq

/-- A row of the `purchases` table (the transaction-receipt log). -/
structure Purchase where
  buyerId : String
  sellerId : String
  listingId : String
  amount : Money
  platformFee : Money
  transactionId : String
deriving Repr, DecidableEq

/-- A row of the `verification_payments` table (the subscription window). -/
structure VerificationPayment where
  userId : String
  periodStart : Int
  periodEnd : Int
  amount : Money
  status : String
deriving Repr, DecidableEq

/-- A row of the `money_gifts` table. -/
structure MoneyGift where
  fromUserId : String
  toUserId : String
  amount : Money
  note : String
deriving Repr, DecidableEq

/-- The database state the core reads and writes. -/
structure Db where
  users : List Account
  listings : List MarketplaceListing
  purchases : List Purchase
  verificationPayments : List VerificationPayment
  moneyGifts : List MoneyGift
deriving Repr, DecidableEq

/-- Ambient request context: the wall clock (`new Date()`), the JS
one-calendar-month successor (`setMonth(getMonth() + 1)`), and the freshly
generated transaction token (`TXN` + `Date.now()` + random suffix). -/
structure Env where
  now : Int
  addOneMonth : Int → Int
  freshTxnId : String

/-- `DatabaseStorage.getUser`: first `users` row with the given id. -/
def getUser (db : Db) (id : String) : Option Account :=
  db.users.find? (fun u => u.id == id)

/-- `DatabaseStorage.getListing`: first `marketplace_listings` row with the
given id. -/
def getListing (db : Db) (id : String) : Option MarketplaceListing :=
  db.listings.find? (fun l => l.id == id)

/-- A drizzle `update(users).set(...).where(eq(users.id, id))`: apply `f`
to every `users` row whose id matches. -/
def updateUserRow (db : Db) (id : String) (f : Account → Account) : Db :=
  { db with users := db.users.map (fun u => if u.id == id then f u else u) }

/-- `DatabaseStorage.updateUserBalance`. -/
def updateUserBalance (db : Db) (id : String) (newBalance : Money) : Db :=
  updateUserRow db id (fun u => { u with balance := newBalance })

/-- `DatabaseStorage.hasPurchased`: does a `purchases` row with this buyer
and listing exist? -/
def hasPurchased (db : Db) (userId listingId : String) : Bool :=
  db.purchases.any (fun p => p.buyerId == userId && p.listingId == listingId)

/-- `DatabaseStorage.createPurchase`: insert a `purchases` row carrying a
freshly generated transaction token. -/
def createPurchase (db : Db) (env : Env) (buyerId sellerId listingId : String)
    (amount platformFee : Money) : Db × Purchase :=
  let p : Purchase :=
    { buyerId := buyerId, sellerId := sellerId, listingId := listingId,
      amount := amount, platformFee := platformFee,
      transactionId := env.freshTxnId }
  ({ db with purchases := db.purchases ++ [p] }, p)

/-- `DatabaseStorage.incrementListingDownloads`. -/
def incrementListingDownloads (db : Db) (id : String) : Db :=
  { db with listings := db.listings.map (fun l =>
      if l.id == id then { l with downloads := l.downloads + 1 } else l) }

/-- `DatabaseStorage.createVerificationPayment`: insert a
`verification_payments` row (`amount` 5000.00, `status` "active",
`periodEnd` one calendar month after `periodStart`), then mark the user
verified with `verificationExpiry = periodEnd`. -/
def createVerificationPayment (db : Db) (env : Env) (userId : String) :
    Db × VerificationPayment :=
  let periodStart := env.now
  let periodEnd := env.addOneMonth env.now
  let payment : VerificationPayment :=
    { userId := userId, periodStart := periodStart, periodEnd := periodEnd,
      amount := 5000, status := "active" }
  let db1 := { db with
    verificationPayments := db.verificationPayments ++ [payment] }
  let db2 := updateUserRow db1 userId (fun u =>
    { u with isVerified := true, verifiedAt := some env.now,
             verificationExpiry := some periodEnd })
  (db2, payment)

/-- SQL three-valued conjunction (Kleene logic; NULL = `none`). -/
def sqlAnd : Option Bool → Option Bool → Option Bool
  | some false, _ => some false
  | _, some false => some false
  | some true, some true => some true
  | _, _ => none

/-- SQL `=` on a nullable varchar column: comparison with NULL is NULL. -/
def sqlEqStr : Option String → Option String → Option Bool
  | some a, some b => some (a == b)
  | _, _ => none

/-- SQL `<` on a nullable timestamp column: comparison with NULL is NULL. -/
def sqlLtInt : Option Int → Option Int → Option Bool
  | some a, some b => some (decide (a < b))
  | _, _ => none

/-- A row satisfies a SQL WHERE clause only when it evaluates to TRUE. -/
def sqlIsTrue : Option Bool → Bool
  | some true => true
  | _ => false

/-- The WHERE clause of the `users` UPDATE inside
`checkAndExpireVerifications`:
`and(eq(isVerified, true), lt(verificationExpiry, now),
eq(verificationGrantedBy, sql`NULL`))` — note the literal SQL `NULL`
(`none`) on the right of the last equality. -/
def expireUserCond (env : Env) (u : Account) : Bool :=
  sqlIsTrue (sqlAnd (some (u.isVerified == true))
    (sqlAnd (sqlLtInt u.verificationExpiry (some env.now))
            (sqlEqStr u.verificationGrantedBy none)))

/-- Effect of the first UPDATE of `checkAndExpireVerifications` on one
`verification_payments` row: an active row whose `periodEnd` is in the past
becomes expired. -/
def expireWindowStep (env : Env) (p : VerificationPayment) : VerificationPayment :=
  if p.status == "active" && decide (p.periodEnd < env.now)
  then { p with status := "expired" } else p

/-- Effect of the second UPDATE of `checkAndExpireVerifications` on one
`users` row. -/
def expireUserStep (env : Env) (u : Account) : Account :=
  if expireUserCond env u
  then { u with isVerified := false, verificationExpiry := none }
  else u

/-- `DatabaseStorage.checkAndExpireVerifications`: mark every active
`verification_payments` row with `periodEnd` in the past as expired, then
run the (NULL-comparing) `users` UPDATE. -/
def checkAndExpireVerifications (db : Db) (env : Env) : Db :=
  { db with
    verificationPayments := db.verificationPayments.map (expireWindowStep env),
    users := db.users.map (expireUserStep env) }

/-- Result of a route handler: the JSON payload or the error message sent
with a 4xx status. -/
inductive Outcome (α : Type) where
  | ok (value : α)
  | err (message : String)
deriving Repr, DecidableEq

/-- The post-guard effects of `POST /api/marketplace/:id/purchase`: debit
the buyer (unless infinite), credit the seller's balance and lifetime
earnings (unless infinite or missing), insert the purchase row with the
listing's price, and bump the listing's download counter. -/
def purchaseSuccess (db : Db) (env : Env) (buyer : Account)
    (listing : MarketplaceListing) : Db × Purchase :=
  let price := listing.price
  let buyerBalance := buyer.balance
  let db1 :=
    if !buyer.hasInfiniteBalance then
      updateUserBalance db buyer.id (toFixed2 (buyerBalance - price))
    else db
  let db2 :=
    match getUser db1 listing.sellerId with
    | some seller =>
      if !seller.hasInfiniteBalance then
        let dba := updateUserBalance db1 seller.id
          (toFixed2 (seller.balance + price))
        updateUserRow dba seller.id (fun u =>
          { u with totalEarnings :=
              toFixed2 (seller.totalEarnings + price) })
      else db1
    | none => db1
  let step := createPurchase db2 env buyer.id listing.sellerId
    listing.id listing.price 0
  (incrementListingDownloads step.1 listing.id, step.2)

/-- `POST /api/marketplace/:id/purchase` (storage.ts): look up listing and
buyer, reject duplicate ownership, self-purchase and insufficient balance,
then apply `purchaseSuccess`.  (Notification and achievement writes are
omitted: they touch no modelled table.) -/
def purchaseListing (db : Db) (env : Env) (buyerId listingId : String) :
    Db × Outcome Purchase :=
  match getListing db listingId with
  | none => (db, Outcome.err "Listing not found")
  | some listing =>
    match getUser db buyerId with
    | none => (db, Outcome.err "User not found")
    | some buyer =>
      if hasPurchased db buyerId listingId then
        (db, Outcome.err "You already own this file")
      else if listing.sellerId == buyerId then
        (db, Outcome.err "You cannot buy your own listing")
      else if !buyer.hasInfiniteBalance && decide (buyer.balance < listing.price) then
        (db, Outcome.err "Insufficient balance")
      else
        let step := purchaseSuccess db env buyer listing
        (step.1, Outcome.ok step.2)

/-- The post-guard effects of `POST /api/verification/purchase`: debit the
fixed 5000 fee (unless infinite), then create the verification payment
(which also flips the user's verified flag). -/
def verificationSuccess (db : Db) (env : Env) (user : Account) :
    Db × VerificationPayment :=
  let db1 :=
    if !user.hasInfiniteBalance then
      updateUserBalance db user.id (toFixed2 (user.balance - 5000))
    else db
  createVerificationPayment db1 env user.id

/-- `POST /api/verification/purchase` (storage.ts): reject a missing or
already-verified user and an insufficient balance, then apply
`verificationSuccess`. -/
def verificationPurchase (db : Db) (env : Env) (userId : String) :
    Db × Outcome VerificationPayment :=
  match getUser db userId with
  | none => (db, Outcome.err "User not found")
  | some user =>
    if user.isVerified then
      (db, Outcome.err "You are already verified")
    else if !user.hasInfiniteBalance && decide (user.balance < (5000 : Money)) then
      (db, Outcome.err "Insufficient balance. Verification costs $5,000/month.")
    else
      let step := verificationSuccess db env user
      (step.1, Outcome.ok step.2)

/-- The post-guard effects of `POST /api/admin/gift-money`: credit the
recipient (unless infinite) and insert the gift row.  The handler performs
no self-gift check and never debits the sender. -/
def giftSuccess (db : Db) (adminId userId : String) (recipient : Account)
    (amount : Money) (note : String) : Db × MoneyGift :=
  let db1 :=
    if !recipient.hasInfiniteBalance then
      updateUserBalance db userId (toFixed2 (recipient.balance + amount))
    else db
  let gift : MoneyGift :=
    { fromUserId := adminId, toUserId := userId,
      amount := toFixed2 amount, note := note }
  ({ db1 with moneyGifts := db1.moneyGifts ++ [gift] }, gift)

/-- `POST /api/admin/gift-money` (storage.ts): reject a falsy user id or a
non-positive amount and a missing recipient, then apply `giftSuccess`. -/
def giftMoney (db : Db) (adminId userId : String) (amount : Money)
    (note : String) : Db × Outcome MoneyGift :=
  if userId == "" || decide (amount ≤ 0) then
    (db, Outcome.err "Invalid user or amount")
  else
    match getUser db userId with
    | none => (db, Outcome.err "User not found")
    | some recipient =>
      let step := giftSuccess db adminId userId recipient amount note
      (step.1, Outcome.ok step.2)

/-! ## Basic arithmetic lemmas about `toFixed2` and `isCents` -/

/-- `toFixed2` written with the mathematical floor function. -/
theorem toFixed2_def (q : Money) :
    toFixed2 q = ((⌊q * 100 + 1 / 2⌋ : ℤ) : ℚ) / 100 := by
  rw [toFixed2, Rat.floor_def', ← Rat.floor_def]

/-- A value is an exact two-decimal amount iff it is an integer number of
hundredths. -/
theorem isCents_iff (q : Money) : isCents q ↔ ∃ n : ℤ, q = (n : ℚ) / 100 := by
  constructor
  · intro h
    refine ⟨(q * 100).num, ?_⟩
    have h1 : ((q * 100).num : ℚ) = q * 100 := (Rat.den_eq_one_iff _).mp h
    rw [h1]
    field_simp
  · rintro ⟨n, rfl⟩
    unfold isCents
    rw [div_mul_cancel₀ _ (by norm_num : (100 : ℚ) ≠ 0)]
    exact Rat.den_intCast n

/-- Rounding to two decimals always yields an exact two-decimal amount. -/
theorem isCents_toFixed2 (q : Money) : isCents (toFixed2 q) := by
  rw [toFixed2_def]
  exact (isCents_iff _).mpr ⟨_, rfl⟩

/-- Rounding is the identity on exact two-decimal amounts. -/
theorem toFixed2_eq_self (q : Money) (h : isCents q) : toFixed2 q = q := by
  obtain ⟨n, rfl⟩ := (isCents_iff q).mp h
  rw [toFixed2_def, div_mul_cancel₀ _ (by norm_num : (100 : ℚ) ≠ 0)]
  rw [add_comm, Int.floor_add_int]
  norm_num

/-- Rounding preserves non-negativity. -/
theorem toFixed2_nonneg (q : Money) (h : 0 ≤ q) : 0 ≤ toFixed2 q := by
  rw [toFixed2_def]
  apply div_nonneg _ (by norm_num : (0:ℚ) ≤ 100)
  have : (0:ℤ) ≤ ⌊q * 100 + 1 / 2⌋ := Int.le_floor.mpr (by push_cast; nlinarith)
  exact_mod_cast this

/-- Exact two-decimal amounts are closed under addition. -/
theorem isCents_add (a b : Money) (ha : isCents a) (hb : isCents b) :
    isCents (a + b) := by
  obtain ⟨m, rfl⟩ := (isCents_iff a).mp ha
  obtain ⟨n, rfl⟩ := (isCents_iff b).mp hb
  exact (isCents_iff _).mpr ⟨m + n, by push_cast; ring⟩

/-- Exact two-decimal amounts are closed under subtraction. -/
theorem isCents_sub (a b : Money) (ha : isCents a) (hb : isCents b) :
    isCents (a - b) := by
  obtain ⟨m, rfl⟩ := (isCents_iff a).mp ha
  obtain ⟨n, rfl⟩ := (isCents_iff b).mp hb
  exact (isCents_iff _).mpr ⟨m - n, by push_cast; ring⟩

/-! ## Lemmas about row lookup and row update -/

/-- `find?` commutes with a `map` that does not change the predicate. -/
theorem find?_map_comm {α : Type} (g : α → α) (p : α → Bool) (l : List α)
    (hp : ∀ a, p (g a) = p a) :
    (l.map g).find? p = (l.find? p).map g := by
  induction l with
  | nil => rfl
  | cons a t ih =>
    simp only [List.map_cons, List.find?_cons, hp]
    cases p a <;> simp [ih]

/-- A found user really is a row of the table. -/
theorem getUser_mem (db : Db) (x : String) (u : Account)
    (h : getUser db x = some u) : u ∈ db.users :=
  List.mem_of_find?_eq_some h

/-- A found user carries the id it was looked up by. -/
theorem getUser_id (db : Db) (x : String) (u : Account)
    (h : getUser db x = some u) : u.id = x := by
  have := List.find?_some h
  simpa using this

/-- A found listing carries the id it was looked up by. -/
theorem getListing_id (db : Db) (x : String) (l : MarketplaceListing)
    (h : getListing db x = some l) : l.id = x := by
  have := List.find?_some h
  simpa using this

/-- A found listing really is a row of the table. -/
theorem getListing_mem (db : Db) (x : String) (l : MarketplaceListing)
    (h : getListing db x = some l) : l ∈ db.listings :=
  List.mem_of_find?_eq_some h

/-- Looking a user up after an id-preserving row update. -/
theorem getUser_updateUserRow (db : Db) (id x : String) (f : Account → Account)
    (hf : ∀ u, (f u).id = u.id) :
    getUser (updateUserRow db id f) x
      = (getUser db x).map (fun u => if u.id == id then f u else u) := by
  unfold getUser updateUserRow
  refine find?_map_comm _ _ _ (fun u => ?_)
  by_cases h : (u.id == id) = true <;> simp [h, hf]

/-- Updating one row leaves lookups of other ids unchanged. -/
theorem getUser_updateUserRow_ne (db : Db) (id x : String)
    (f : Account → Account) (hf : ∀ u, (f u).id = u.id) (hx : x ≠ id) :
    getUser (updateUserRow db id f) x = getUser db x := by
  rw [getUser_updateUserRow db id x f hf]
  cases hu : getUser db x with
  | none => rfl
  | some u =>
    have h2 : u.id = x := getUser_id db x u hu
    simp [h2, hx]

/-- Looking up the updated row returns the updated value. -/
theorem getUser_updateUserRow_self (db : Db) (id : String)
    (f : Account → Account) (hf : ∀ u, (f u).id = u.id) :
    getUser (updateUserRow db id f) id = (getUser db id).map f := by
  rw [getUser_updateUserRow db id id f hf]
  cases hu : getUser db id with
  | none => rfl
  | some u =>
    have h2 : u.id = id := getUser_id db id u hu
    simp [h2]

/-! ## The sweep's WHERE clause never selects a user row -/

/-- SQL `=` against the literal NULL is NULL whatever the column holds. -/
theorem sqlEqStr_none (x : Option String) : sqlEqStr x none = none := by
  cases x <;> rfl

/-- A Kleene conjunction whose last conjunct is NULL is never TRUE. -/
theorem sqlIsTrue_and_and_none :
    ∀ (a b : Option Bool), sqlIsTrue (sqlAnd a (sqlAnd b none)) = false := by
  decide

/-- The `users` UPDATE of `checkAndExpireVerifications` selects no row:
its WHERE clause compares `verificationGrantedBy` with NULL using `=`. -/
theorem expireUserCond_false (env : Env) (u : Account) :
    expireUserCond env u = false := by
  unfold expireUserCond
  rw [sqlEqStr_none]
  exact sqlIsTrue_and_and_none _ _

/-- The per-row `users` sweep is the identity (consequence of the NULL
comparison). -/
theorem expireUserStep_id (env : Env) (u : Account) :
    expireUserStep env u = u := by
  rw [expireUserStep, expireUserCond_false]
  rfl

/-- The `users` table is untouched by the sweep. -/
theorem map_expireUserStep (env : Env) (l : List Account) :
    l.map (expireUserStep env) = l :=
  List.map_id'' (expireUserStep_id env) l

/-- The per-row window sweep is idempotent. -/
theorem expireWindowStep_idem (env : Env) (p : VerificationPayment) :
    expireWindowStep env (expireWindowStep env p) = expireWindowStep env p := by
  unfold expireWindowStep
  by_cases h : (p.status == "active" && decide (p.periodEnd < env.now)) = true
  · rw [if_pos h]
    simp
  · rw [if_neg h, if_neg h]

/-! ## Concrete fixtures used by witnesses and counterexamples -/

/-- A request context: clock at 1000, a one-calendar-month step of 31 days,
a fresh token. -/
def envA : Env :=
  { now := 1000, addOneMonth := fun t => t + 2678400000, freshTxnId := "TXNA" }

/-- An already-verified account. -/
def userVerified : Account :=
  { id := "u1", balance := 100, hasInfiniteBalance := false, totalEarnings := 0,
    isVerified := true, verifiedAt := some 0, verificationExpiry := some 2000,
    verificationGrantedBy := none }

/-- A one-user database for the already-verified scenario. -/
def dbC7 : Db :=
  { users := [userVerified], listings := [], purchases := [],
    verificationPayments := [], moneyGifts := [] }

/-! ## Claim C7 -/

/-- Claim C7: a verification purchase request by an account whose verified
flag is already true fails with the already-verified error before any
effect occurs: the state is returned unchanged, so the balance, the
windows and the receipts are all untouched. -/
theorem verificationPurchase_already_verified (db : Db) (env : Env)
    (userId : String) (u : Account)
    (hu : getUser db userId = some u) (hv : u.isVerified = true) :
    verificationPurchase db env userId
      = (db, Outcome.err "You are already verified") := by
  unfold verificationPurchase
  rw [hu]
  simp [hv]

/-- Witness for C7 at a concrete database. -/
theorem verificationPurchase_already_verified_witness :
    getUser dbC7 "u1" = some userVerified ∧
    userVerified.isVerified = true ∧
    verificationPurchase dbC7 envA "u1"
      = (dbC7, Outcome.err "You are already verified") :=
  ⟨rfl, rfl, verificationPurchase_already_verified dbC7 envA "u1" userVerified rfl rfl⟩

/-! ## Claim C3 -/

/-- A fee-based verified account (`verificationGrantedBy` NULL, so not
administrator-granted) whose verification expiry lies in the past. -/
def staleUser : Account :=
  { id := "s1", balance := 0, hasInfiniteBalance := false, totalEarnings := 0,
    isVerified := true, verifiedAt := some (-100), verificationExpiry := some (-50),
    verificationGrantedBy := none }

/-- The active window backing `staleUser`, with `periodEnd` in the past. -/
def staleWindow : VerificationPayment :=
  { userId := "s1", periodStart := -100, periodEnd := -50,
    amount := 5000, status := "active" }

/-- The database for the expiry-sweep scenario (clock at 0 in `envNow0`). -/
def dbC3 : Db :=
  { users := [staleUser], listings := [], purchases := [],
    verificationPayments := [staleWindow], moneyGifts := [] }

/-- Clock at 0. -/
def envNow0 : Env :=
  { now := 0, addOneMonth := fun t => t + 2678400000, freshTxnId := "TXN0" }

/-- Claim C3 (code bug): the sweep never clears any account's verified
flag.  Its second UPDATE filters on
`eq(users.verificationGrantedBy, sql`NULL`)`, i.e. SQL
`verification_granted_by = NULL`, which is never TRUE under SQL
three-valued comparison (the intended predicate is `IS NULL`).  So the
`users` table is returned unchanged by every sweep, and on the concrete
stale fixture the window is expired while the account — verified, expiry
in the past, not administrator-granted — stays verified with its stale
expiry timestamp, contradicting the claim. -/
theorem sweep_never_clears_verified_flag :
    (∀ (db : Db) (env : Env),
      (checkAndExpireVerifications db env).users = db.users) ∧
    (checkAndExpireVerifications dbC3 envNow0).verificationPayments
      = [{ staleWindow with status := "expired" }] ∧
    getUser (checkAndExpireVerifications dbC3 envNow0) "s1" = some staleUser :=
  ⟨fun db env => map_expireUserStep env db.users, rfl, by
    show getUser _ "s1" = _
    rw [getUser]
    simp only [checkAndExpireVerifications, map_expireUserStep]
    rfl⟩

/-! ## Claim C9 -/

/-- Claim C9: the expiry sweep is idempotent — run twice with the same
clock and no operation in between, the second run changes nothing: windows
already marked expired no longer match the window UPDATE, and the user
UPDATE never matches a row at all. -/
theorem checkAndExpireVerifications_idempotent (db : Db) (env : Env) :
    checkAndExpireVerifications (checkAndExpireVerifications db env) env
      = checkAndExpireVerifications db env := by
  unfold checkAndExpireVerifications
  simp only [map_expireUserStep, List.map_map]
  have h : List.map (expireWindowStep env ∘ expireWindowStep env)
        db.verificationPayments
      = List.map (expireWindowStep env) db.verificationPayments :=
    List.map_congr_left (fun p _ => by
      simp only [Function.comp_apply, expireWindowStep_idem])
  rw [h]

/-! ## Projection lemmas: which tables each write leaves untouched -/

@[simp] theorem updateUserRow_purchases (db : Db) (id : String)
    (f : Account → Account) : (updateUserRow db id f).purchases = db.purchases := rfl

@[simp] theorem updateUserRow_listings (db : Db) (id : String)
    (f : Account → Account) : (updateUserRow db id f).listings = db.listings := rfl

@[simp] theorem updateUserRow_verificationPayments (db : Db) (id : String)
    (f : Account → Account) :
    (updateUserRow db id f).verificationPayments = db.verificationPayments := rfl

@[simp] theorem updateUserRow_moneyGifts (db : Db) (id : String)
    (f : Account → Account) : (updateUserRow db id f).moneyGifts = db.moneyGifts := rfl

@[simp] theorem updateUserBalance_purchases (db : Db) (id : String) (v : Money) :
    (updateUserBalance db id v).purchases = db.purchases := rfl

@[simp] theorem updateUserBalance_listings (db : Db) (id : String) (v : Money) :
    (updateUserBalance db id v).listings = db.listings := rfl

@[simp] theorem updateUserBalance_verificationPayments (db : Db) (id : String)
    (v : Money) :
    (updateUserBalance db id v).verificationPayments = db.verificationPayments := rfl

@[simp] theorem updateUserBalance_moneyGifts (db : Db) (id : String) (v : Money) :
    (updateUserBalance db id v).moneyGifts = db.moneyGifts := rfl

@[simp] theorem incrementListingDownloads_users (db : Db) (id : String) :
    (incrementListingDownloads db id).users = db.users := rfl

@[simp] theorem incrementListingDownloads_purchases (db : Db) (id : String) :
    (incrementListingDownloads db id).purchases = db.purchases := rfl

@[simp] theorem incrementListingDownloads_verificationPayments (db : Db)
    (id : String) :
    (incrementListingDownloads db id).verificationPayments
      = db.verificationPayments := rfl

@[simp] theorem incrementListingDownloads_moneyGifts (db : Db) (id : String) :
    (incrementListingDownloads db id).moneyGifts = db.moneyGifts := rfl

@[simp] theorem createPurchase_fst_users (db : Db) (env : Env)
    (b s l : String) (a f : Money) :
    (createPurchase db env b s l a f).1.users = db.users := rfl

@[simp] theorem createPurchase_fst_purchases (db : Db) (env : Env)
    (b s l : String) (a f : Money) :
    (createPurchase db env b s l a f).1.purchases
      = db.purchases ++ [(createPurchase db env b s l a f).2] := rfl

/-- Lookups are insensitive to every write that leaves `users` unchanged. -/
theorem getUser_incrementListingDownloads (db : Db) (id x : String) :
    getUser (incrementListingDownloads db id) x = getUser db x := rfl

/-! ## Shape of the purchase success path -/

/-- The purchase row inserted by the success path. -/
theorem purchaseSuccess_snd (db : Db) (env : Env) (buyer : Account)
    (listing : MarketplaceListing) :
    (purchaseSuccess db env buyer listing).2
      = { buyerId := buyer.id, sellerId := listing.sellerId,
          listingId := listing.id, amount := listing.price, platformFee := 0,
          transactionId := env.freshTxnId } := rfl

/-- The success path appends exactly its own purchase row to the log. -/
theorem purchaseSuccess_purchases (db : Db) (env : Env) (buyer : Account)
    (listing : MarketplaceListing) :
    (purchaseSuccess db env buyer listing).1.purchases
      = db.purchases ++ [(purchaseSuccess db env buyer listing).2] := by
  unfold purchaseSuccess
  dsimp only
  cases h : getUser (if !buyer.hasInfiniteBalance then
      updateUserBalance db buyer.id (toFixed2 (buyer.balance - listing.price))
    else db) listing.sellerId with
  | none =>
    by_cases hib : !buyer.hasInfiniteBalance <;> simp [hib]
  | some seller =>
    by_cases hsb : !seller.hasInfiniteBalance <;>
      by_cases hib : !buyer.hasInfiniteBalance <;> simp [hib, hsb]

/-- Every run of the purchase endpoint either rejects (state unchanged) or
runs the success path for the looked-up buyer and listing, with the
duplicate-ownership guard known to have passed. -/
theorem purchaseListing_cases (db : Db) (env : Env) (b l : String) :
    (purchaseListing db env b l).1 = db ∨
    ∃ listing buyer,
      getListing db l = some listing ∧ getUser db b = some buyer ∧
      hasPurchased db b l = false ∧ listing.sellerId ≠ b ∧
      (!buyer.hasInfiniteBalance
        && decide (buyer.balance < listing.price)) = false ∧
      (purchaseListing db env b l).1 = (purchaseSuccess db env buyer listing).1 := by
  unfold purchaseListing
  cases hl : getListing db l with
  | none => exact Or.inl rfl
  | some listing =>
    cases hb : getUser db b with
    | none => exact Or.inl rfl
    | some buyer =>
      dsimp only
      by_cases hp : hasPurchased db b l = true
      · rw [if_pos hp]
        exact Or.inl rfl
      · have hp' : hasPurchased db b l = false := by
          simpa using hp
        rw [if_neg (by simp [hp'])]
        by_cases hs : (listing.sellerId == b) = true
        · rw [if_pos hs]
          exact Or.inl rfl
        · rw [if_neg hs]
          by_cases hf : (!buyer.hasInfiniteBalance
              && decide (buyer.balance < listing.price)) = true
          · rw [if_pos hf]
            exact Or.inl rfl
          · rw [if_neg hf]
            refine Or.inr ⟨listing, buyer, rfl, rfl, hp', ?_, ?_, rfl⟩
            · simpa using hs
            · simpa using hf

/-- Number of purchase rows for one (buyer, listing) pair. -/
def purchaseCount (db : Db) (buyerId listingId : String) : Nat :=
  (db.purchases.filter
    (fun p => p.buyerId == buyerId && p.listingId == listingId)).length

/-- If the ownership check reports no purchase, the pair's count is zero. -/
theorem purchaseCount_of_not_hasPurchased (db : Db) (b l : String)
    (h : hasPurchased db b l = false) : purchaseCount db b l = 0 := by
  unfold purchaseCount
  unfold hasPurchased at h
  rw [List.any_eq_false] at h
  rw [List.filter_eq_nil_iff.mpr h]
  rfl

/-- The success path raises the inserted pair's count by one and no other. -/
theorem purchaseCount_purchaseSuccess (db : Db) (env : Env) (buyer : Account)
    (listing : MarketplaceListing) (x y : String) :
    purchaseCount (purchaseSuccess db env buyer listing).1 x y
      = purchaseCount db x y
        + (if buyer.id == x && listing.id == y then 1 else 0) := by
  unfold purchaseCount
  rw [purchaseSuccess_purchases, List.filter_append, List.length_append,
    purchaseSuccess_snd]
  cases h : (buyer.id == x && listing.id == y) <;> simp [List.filter, h]

/-- The purchase endpoint preserves "at most one purchase row per
(buyer, listing) pair". -/
theorem purchaseListing_preserves_count (db : Db) (env : Env) (b l : String)
    (inv : ∀ x y, purchaseCount db x y ≤ 1) :
    ∀ x y, purchaseCount (purchaseListing db env b l).1 x y ≤ 1 := by
  intro x y
  rcases purchaseListing_cases db env b l with
    h | ⟨listing, buyer, hl, hb, hnp, _, _, h⟩
  · rw [h]; exact inv x y
  · rw [h, purchaseCount_purchaseSuccess]
    by_cases hxy : (buyer.id == x && listing.id == y) = true
    · rw [if_pos hxy]
      have hx : buyer.id = x := by
        have := (Bool.and_eq_true _ _).mp hxy
        exact eq_of_beq this.1
      have hy : listing.id = y := by
        have := (Bool.and_eq_true _ _).mp hxy
        exact eq_of_beq this.2
      have hxb : x = b := by rw [← hx, getUser_id db b buyer hb]
      have hyl : y = l := by rw [← hy, getListing_id db l listing hl]
      have h0 : purchaseCount db x y = 0 := by
        rw [hxb, hyl]
        exact purchaseCount_of_not_hasPurchased db b l hnp
      rw [h0]
    · rw [if_neg hxy]
      simpa using inv x y

/-! ## Claim C4 -/

/-- A buyer with balance 10 and no infinite-balance flag. -/
def buyerPoor : Account :=
  { id := "b1", balance := 10, hasInfiniteBalance := false, totalEarnings := 0,
    isVerified := false, verifiedAt := none, verificationExpiry := none,
    verificationGrantedBy := none }

/-- The seller of `listingL1`. -/
def sellerS2 : Account :=
  { id := "s2", balance := 20, hasInfiniteBalance := false, totalEarnings := 5,
    isVerified := false, verifiedAt := none, verificationExpiry := none,
    verificationGrantedBy := none }

/-- A listing priced 100, far above `buyerPoor`'s balance. -/
def listingL1 : MarketplaceListing :=
  { id := "l1", sellerId := "s2", price := 100, downloads := 0 }

/-- An existing purchase row: `buyerPoor` already owns `listingL1`. -/
def ownedPurchase : Purchase :=
  { buyerId := "b1", sellerId := "s2", listingId := "l1", amount := 100,
    platformFee := 0, transactionId := "TXNOLD" }

/-- Database where the buyer already owns the over-priced listing. -/
def dbC4 : Db :=
  { users := [buyerPoor, sellerS2], listings := [listingL1],
    purchases := [ownedPurchase], verificationPayments := [], moneyGifts := [] }

/-- Same database without the prior purchase row. -/
def dbC4f : Db :=
  { users := [buyerPoor, sellerS2], listings := [listingL1],
    purchases := [], verificationPayments := [], moneyGifts := [] }

/-- Claim C4 counterexample: a buyer without unlimited funds facing a
listing priced above their balance is NOT always given the
insufficient-funds error — a buyer who already owns the listing is
rejected earlier with the already-owned message, because the handler
checks ownership (and self-purchase) before it checks the balance. -/
theorem purchase_insufficient_claim_false :
    getListing dbC4 "l1" = some listingL1 ∧
    getUser dbC4 "b1" = some buyerPoor ∧
    buyerPoor.hasInfiniteBalance = false ∧
    buyerPoor.balance < listingL1.price ∧
    purchaseListing dbC4 envA "b1" "l1"
      = (dbC4, Outcome.err "You already own this file") ∧
    (purchaseListing dbC4 envA "b1" "l1").2
      ≠ Outcome.err "Insufficient balance" :=
  ⟨rfl, rfl, rfl, by decide, rfl, by decide⟩

/-- Claim C4 (amended): provided the buyer does not already own the
listing and is not its seller, a purchase request by a buyer without
unlimited funds against a listing priced above the buyer's balance fails
with the insufficient-funds error and returns the state unchanged — no
debit, no credit, and no purchase row. -/
theorem purchase_insufficient_funds (db : Db) (env : Env)
    (buyerId listingId : String) (listing : MarketplaceListing)
    (buyer : Account)
    (hl : getListing db listingId = some listing)
    (hb : getUser db buyerId = some buyer)
    (hnp : hasPurchased db buyerId listingId = false)
    (hself : listing.sellerId ≠ buyerId)
    (hinf : buyer.hasInfiniteBalance = false)
    (hlt : buyer.balance < listing.price) :
    purchaseListing db env buyerId listingId
      = (db, Outcome.err "Insufficient balance") := by
  unfold purchaseListing
  rw [hl, hb]
  dsimp only
  rw [if_neg (by simp [hnp]), if_neg (by simp [hself]),
    if_pos (by simp [hinf, hlt])]

/-- Witness for the amended C4 on a concrete database. -/
theorem purchase_insufficient_funds_witness :
    getListing dbC4f "l1" = some listingL1 ∧
    getUser dbC4f "b1" = some buyerPoor ∧
    hasPurchased dbC4f "b1" "l1" = false ∧
    listingL1.sellerId ≠ "b1" ∧
    buyerPoor.hasInfiniteBalance = false ∧
    buyerPoor.balance < listingL1.price ∧
    purchaseListing dbC4f envA "b1" "l1"
      = (dbC4f, Outcome.err "Insufficient balance") :=
  ⟨rfl, rfl, rfl, by decide, rfl, by decide,
    purchase_insufficient_funds dbC4f envA "b1" "l1" listingL1 buyerPoor
      rfl rfl rfl (by decide) rfl (by decide)⟩

/-! ## Claim C6 -/

/-- An account that also sells a listing; used for the self-transfer
scenarios. -/
def ownBuyer : Account :=
  { id := "b2", balance := 40, hasInfiniteBalance := false, totalEarnings := 0,
    isVerified := false, verifiedAt := none, verificationExpiry := none,
    verificationGrantedBy := none }

/-- A listing whose seller is `ownBuyer` itself. -/
def ownListing : MarketplaceListing :=
  { id := "l2", sellerId := "b2", price := 5, downloads := 0 }

/-- Database for the self-transfer scenarios. -/
def dbC6 : Db :=
  { users := [ownBuyer], listings := [ownListing], purchases := [],
    verificationPayments := [], moneyGifts := [] }

/-- Claim C6 counterexample: a gift whose sender equals its recipient is
NOT rejected.  `POST /api/admin/gift-money` never compares sender and
recipient: the self-gift below succeeds, credits the account with the
amount out of thin air (the sender is never debited), and appends a gift
record. -/
theorem self_gift_accepted :
    getUser dbC6 "b2" = some ownBuyer ∧
    (0 : Money) < 100 ∧
    (giftMoney dbC6 "b2" "b2" 100 "hello").2
      = Outcome.ok { fromUserId := "b2", toUserId := "b2",
                     amount := toFixed2 100, note := "hello" } ∧
    (giftMoney dbC6 "b2" "b2" 100 "hello").1.moneyGifts
      = [{ fromUserId := "b2", toUserId := "b2",
           amount := toFixed2 100, note := "hello" }] ∧
    toFixed2 100 = 100 :=
  ⟨rfl, by decide, rfl, rfl,
    toFixed2_eq_self 100 ((isCents_iff 100).mpr ⟨10000, by norm_num⟩)⟩

/-- Claim C6 (amended): a purchase in which the buyer is the seller of the
listing fails with the self-transfer error and changes nothing (provided
the buyer has no pre-existing purchase row for the listing, which the
handler checks first); but a gift whose sender equals its recipient is NOT
rejected: it succeeds and appends a gift record whilst crediting the
recipient. -/
theorem self_transfer_rejected_for_purchase_not_gift (db : Db) (env : Env)
    (buyerId listingId adminId : String) (listing : MarketplaceListing)
    (buyer recipient : Account) (amount : Money) (note : String)
    (hl : getListing db listingId = some listing)
    (hb : getUser db buyerId = some buyer)
    (hnp : hasPurchased db buyerId listingId = false)
    (hself : listing.sellerId = buyerId)
    (hr : getUser db adminId = some recipient)
    (hid : adminId ≠ "")
    (hpos : 0 < amount) :
    purchaseListing db env buyerId listingId
      = (db, Outcome.err "You cannot buy your own listing") ∧
    (giftMoney db adminId adminId amount note).2
      = Outcome.ok { fromUserId := adminId, toUserId := adminId,
                     amount := toFixed2 amount, note := note } ∧
    (giftMoney db adminId adminId amount note).1.moneyGifts
      = db.moneyGifts ++ [{ fromUserId := adminId, toUserId := adminId,
                            amount := toFixed2 amount, note := note }] := by
  refine ⟨?_, ?_, ?_⟩
  · unfold purchaseListing
    rw [hl, hb]
    dsimp only
    rw [if_neg (by simp [hnp]), if_pos (by simp [hself])]
  · unfold giftMoney
    rw [if_neg (by simp [hid, not_le.mpr hpos]), hr]
    rfl
  · unfold giftMoney
    rw [if_neg (by simp [hid, not_le.mpr hpos]), hr]
    dsimp only [giftSuccess]
    by_cases hib : !recipient.hasInfiniteBalance <;> simp [hib]

/-- Witness for the amended C6 on a concrete database. -/
theorem self_transfer_rejected_for_purchase_not_gift_witness :
    getListing dbC6 "l2" = some ownListing ∧
    getUser dbC6 "b2" = some ownBuyer ∧
    hasPurchased dbC6 "b2" "l2" = false ∧
    ownListing.sellerId = "b2" ∧
    ("b2" : String) ≠ "" ∧
    (0 : Money) < 100 ∧
    purchaseListing dbC6 envA "b2" "l2"
      = (dbC6, Outcome.err "You cannot buy your own listing") ∧
    (giftMoney dbC6 "b2" "b2" 100 "hello").1.moneyGifts
      = dbC6.moneyGifts ++ [{ fromUserId := "b2", toUserId := "b2",
                              amount := toFixed2 100, note := "hello" }] := by
  obtain ⟨h1, _, h3⟩ :=
    self_transfer_rejected_for_purchase_not_gift dbC6 envA "b2" "l2" "b2"
      ownListing ownBuyer ownBuyer 100 "hello" rfl rfl rfl rfl rfl
      (by decide) (by decide)
  exact ⟨rfl, rfl, rfl, rfl, by decide, by decide, h1, h3⟩

/-! ## Claim C10 -/

/-- Claim C10: the purchase endpoint creates at most one purchase row per
(buyer, listing) pair.  A buyer who already owns the listing is rejected
with "You already own this file" before any balance mutation, the state
being returned unchanged; and every run of the endpoint preserves the
invariant that each (buyer, listing) pair has at most one purchase row. -/
theorem purchase_at_most_once (db : Db) (env : Env) (buyerId listingId : String)
    (listing : MarketplaceListing) (buyer : Account)
    (hl : getListing db listingId = some listing)
    (hb : getUser db buyerId = some buyer)
    (hp : hasPurchased db buyerId listingId = true) :
    purchaseListing db env buyerId listingId
      = (db, Outcome.err "You already own this file") ∧
    ∀ (db2 : Db) (b l : String),
      (∀ x y, purchaseCount db2 x y ≤ 1) →
      ∀ x y, purchaseCount (purchaseListing db2 env b l).1 x y ≤ 1 := by
  constructor
  · unfold purchaseListing
    rw [hl, hb]
    dsimp only
    rw [if_pos (by simp [hp])]
  · intro db2 b l inv
    exact purchaseListing_preserves_count db2 env b l inv

/-- Witness for C10 on a concrete database. -/
theorem purchase_at_most_once_witness :
    getListing dbC4 "l1" = some listingL1 ∧
    getUser dbC4 "b1" = some buyerPoor ∧
    hasPurchased dbC4 "b1" "l1" = true ∧
    purchaseListing dbC4 envA "b1" "l1"
      = (dbC4, Outcome.err "You already own this file") :=
  ⟨rfl, rfl, rfl,
    (purchase_at_most_once dbC4 envA "b1" "l1" listingL1 buyerPoor
      rfl rfl rfl).1⟩

/-! ## Shape of the verification success path -/

/-- The verification-payment row inserted by the success path. -/
theorem verificationSuccess_snd (db : Db) (env : Env) (user : Account) :
    (verificationSuccess db env user).2
      = { userId := user.id, periodStart := env.now,
          periodEnd := env.addOneMonth env.now, amount := 5000,
          status := "active" } := rfl

/-- The success path appends exactly its own payment row. -/
theorem verificationSuccess_verificationPayments (db : Db) (env : Env)
    (user : Account) :
    (verificationSuccess db env user).1.verificationPayments
      = db.verificationPayments ++ [(verificationSuccess db env user).2] := by
  unfold verificationSuccess createVerificationPayment
  by_cases hib : !user.hasInfiniteBalance <;> simp [hib]

/-- `createVerificationPayment` updates the target user's verified flag,
`verifiedAt` and expiry, and nothing else in `users`. -/
theorem createVerificationPayment_getUser (db : Db) (env : Env)
    (uid x : String) :
    getUser (createVerificationPayment db env uid).1 x
      = (getUser db x).map (fun w =>
          if w.id == uid then
            { w with isVerified := true, verifiedAt := some env.now,
                     verificationExpiry := some (env.addOneMonth env.now) }
          else w) := by
  unfold createVerificationPayment
  dsimp only
  exact getUser_updateUserRow _ uid x _ (fun w => rfl)

/-- Looking up the subscriber after the verification success path. -/
theorem verificationSuccess_getUser_self (db : Db) (env : Env) (u : Account)
    (userId : String) (hu : getUser db userId = some u) :
    getUser (verificationSuccess db env u).1 userId
      = some { u with
          balance := if u.hasInfiniteBalance then u.balance
                     else toFixed2 (u.balance - 5000),
          isVerified := true, verifiedAt := some env.now,
          verificationExpiry := some (env.addOneMonth env.now) } := by
  have h1 : u.id = userId := getUser_id db userId u hu
  unfold verificationSuccess
  dsimp only
  rw [createVerificationPayment_getUser]
  by_cases hib : u.hasInfiniteBalance
  · simp only [hib, Bool.not_true, Bool.false_eq_true, if_false]
    rw [hu]
    simp [h1, hib]
  · simp only [hib, Bool.not_false, if_true, updateUserBalance]
    rw [getUser_updateUserRow db u.id userId
        (fun w => { w with balance := toFixed2 (u.balance - 5000) })
        (fun w => rfl), hu]
    simp [h1, hib]

/-- The success branch of the verification endpoint, reached exactly when
the guards pass. -/
theorem verificationPurchase_success_eq (db : Db) (env : Env)
    (userId : String) (u : Account)
    (hu : getUser db userId = some u)
    (hnv : u.isVerified = false)
    (hguard : (!u.hasInfiniteBalance
        && decide (u.balance < (5000 : Money))) = false) :
    verificationPurchase db env userId
      = ((verificationSuccess db env u).1,
         Outcome.ok (verificationSuccess db env u).2) := by
  unfold verificationPurchase
  rw [hu]
  dsimp only
  rw [if_neg (by simp [hnv]), if_neg (by simp [hguard])]

/-! ## Claim C5 -/

/-- Claim C5: a verification purchase by a non-verified account with
sufficient balance (or unlimited funds) debits exactly the fixed 5000 fee
(unless unlimited), appends exactly one "active" window whose `periodEnd`
is one calendar month (`Env.addOneMonth`, the JS `setMonth(getMonth()+1)`)
after its `periodStart`, flips the account's verified flag and sets its
verification expiry to that `periodEnd`. -/
theorem verificationPurchase_success (db : Db) (env : Env) (userId : String)
    (u : Account)
    (hu : getUser db userId = some u)
    (hnv : u.isVerified = false)
    (hfunds : u.hasInfiniteBalance = true ∨ (5000 : Money) ≤ u.balance)
    (hc : isCents u.balance) :
    (verificationPurchase db env userId).2
      = Outcome.ok { userId := u.id, periodStart := env.now,
                     periodEnd := env.addOneMonth env.now, amount := 5000,
                     status := "active" } ∧
    (verificationPurchase db env userId).1.verificationPayments
      = db.verificationPayments
        ++ [{ userId := u.id, periodStart := env.now,
              periodEnd := env.addOneMonth env.now, amount := 5000,
              status := "active" }] ∧
    getUser (verificationPurchase db env userId).1 userId
      = some { u with
          balance := if u.hasInfiniteBalance then u.balance
                     else u.balance - 5000,
          isVerified := true, verifiedAt := some env.now,
          verificationExpiry := some (env.addOneMonth env.now) } := by
  have hguard : (!u.hasInfiniteBalance
      && decide (u.balance < (5000 : Money))) = false := by
    rcases hfunds with h | h
    · simp [h]
    · simp [not_lt.mpr h]
  have heq := verificationPurchase_success_eq db env userId u hu hnv hguard
  have hfix : toFixed2 (u.balance - 5000) = u.balance - 5000 :=
    toFixed2_eq_self _ (isCents_sub _ _ hc
      ((isCents_iff 5000).mpr ⟨500000, by norm_num⟩))
  refine ⟨?_, ?_, ?_⟩
  · rw [heq]
    dsimp only
    rw [verificationSuccess_snd]
  · rw [heq]
    dsimp only
    rw [verificationSuccess_verificationPayments, verificationSuccess_snd]
  · rw [heq]
    dsimp only
    rw [verificationSuccess_getUser_self db env u userId hu]
    by_cases hib : u.hasInfiniteBalance <;> simp [hib, hfix]

/-- The not-yet-verified subscriber with exactly the fee's balance. -/
def subC5 : Account :=
  { id := "c1", balance := 5000, hasInfiniteBalance := false,
    totalEarnings := 0, isVerified := false, verifiedAt := none,
    verificationExpiry := none, verificationGrantedBy := none }

/-- Database for the concrete verification-purchase scenario. -/
def dbC5 : Db :=
  { users := [subC5], listings := [], purchases := [],
    verificationPayments := [], moneyGifts := [] }

/-- Witness for C5: an account with balance 5000.00 ends with balance 0.00,
verified, with a single active window. -/
theorem verificationPurchase_success_witness :
    getUser dbC5 "c1" = some subC5 ∧
    subC5.isVerified = false ∧
    (5000 : Money) ≤ subC5.balance ∧
    isCents subC5.balance ∧
    (verificationPurchase dbC5 envA "c1").1.verificationPayments
      = [{ userId := "c1", periodStart := envA.now,
           periodEnd := envA.addOneMonth envA.now, amount := 5000,
           status := "active" }] ∧
    (∃ v, getUser (verificationPurchase dbC5 envA "c1").1 "c1" = some v ∧
      v.balance = 0 ∧ v.isVerified = true ∧
      v.verificationExpiry = some (envA.addOneMonth envA.now)) := by
  obtain ⟨h1, h2, h3⟩ := verificationPurchase_success dbC5 envA "c1" subC5
    rfl rfl (Or.inr (by norm_num [subC5]))
    ((isCents_iff _).mpr ⟨500000, by norm_num [subC5]⟩)
  refine ⟨rfl, rfl, by norm_num [subC5],
    (isCents_iff _).mpr ⟨500000, by norm_num [subC5]⟩, ?_, ?_⟩
  · rw [h2]
    rfl
  · exact ⟨_, h3, by norm_num [subC5], rfl, rfl⟩

/-! ## Claim C2 -/

/-- An unlimited-funds account that is not yet verified. -/
def richInfinite : Account :=
  { id := "i1", balance := 777, hasInfiniteBalance := true, totalEarnings := 0,
    isVerified := false, verifiedAt := none, verificationExpiry := none,
    verificationGrantedBy := none }

/-- Database for the unlimited-funds verification scenario. -/
def dbC2 : Db :=
  { users := [richInfinite], listings := [], purchases := [],
    verificationPayments := [], moneyGifts := [] }

/-- Claim C2 counterexample: for an unlimited-funds account, the claim
says no receipt is created; but the verification purchase unconditionally
inserts its fee record — the `verification_payments` row with amount
5000.00, the only payment/receipt artefact this flow ever produces — even
when no debit occurs. -/
theorem verification_unlimited_still_records_payment :
    getUser dbC2 "i1" = some richInfinite ∧
    richInfinite.hasInfiniteBalance = true ∧
    richInfinite.isVerified = false ∧
    dbC2.verificationPayments = [] ∧
    (verificationPurchase dbC2 envA "i1").1.verificationPayments
      = [{ userId := "i1", periodStart := envA.now,
           periodEnd := envA.addOneMonth envA.now, amount := 5000,
           status := "active" }] :=
  ⟨rfl, rfl, rfl, rfl, rfl⟩

/-- Claim C2 (amended): every successful verification purchase — with or
without unlimited funds — creates exactly one payment record, the
`verification_payments` row carrying the fixed 5000 fee (this flow writes
no separate transaction-receipt row); the balance debit happens exactly
when the account lacks unlimited funds. -/
theorem verification_payment_row_always_created (db : Db) (env : Env)
    (userId : String) (u : Account)
    (hu : getUser db userId = some u)
    (hnv : u.isVerified = false)
    (hfunds : u.hasInfiniteBalance = true ∨ (5000 : Money) ≤ u.balance) :
    (verificationPurchase db env userId).1.verificationPayments
      = db.verificationPayments
        ++ [{ userId := u.id, periodStart := env.now,
              periodEnd := env.addOneMonth env.now, amount := 5000,
              status := "active" }] ∧
    (u.hasInfiniteBalance = true →
      ∃ v, getUser (verificationPurchase db env userId).1 userId = some v ∧
        v.balance = u.balance) ∧
    (u.hasInfiniteBalance = false →
      ∃ v, getUser (verificationPurchase db env userId).1 userId = some v ∧
        v.balance = toFixed2 (u.balance - 5000)) := by
  have hguard : (!u.hasInfiniteBalance
      && decide (u.balance < (5000 : Money))) = false := by
    rcases hfunds with h | h
    · simp [h]
    · simp [not_lt.mpr h]
  have heq := verificationPurchase_success_eq db env userId u hu hnv hguard
  refine ⟨?_, ?_, ?_⟩
  · rw [heq]
    dsimp only
    rw [verificationSuccess_verificationPayments, verificationSuccess_snd]
  · intro hib
    rw [heq]
    dsimp only
    rw [verificationSuccess_getUser_self db env u userId hu]
    exact ⟨_, rfl, by simp [hib]⟩
  · intro hib
    rw [heq]
    dsimp only
    rw [verificationSuccess_getUser_self db env u userId hu]
    exact ⟨_, rfl, by simp [hib]⟩

/-- Witness for the amended C2 at the unlimited-funds fixture. -/
theorem verification_payment_row_always_created_witness :
    getUser dbC2 "i1" = some richInfinite ∧
    richInfinite.isVerified = false ∧
    richInfinite.hasInfiniteBalance = true ∧
    (verificationPurchase dbC2 envA "i1").1.verificationPayments
      = dbC2.verificationPayments
        ++ [{ userId := "i1", periodStart := envA.now,
              periodEnd := envA.addOneMonth envA.now, amount := 5000,
              status := "active" }] ∧
    (∃ v, getUser (verificationPurchase dbC2 envA "i1").1 "i1" = some v ∧
      v.balance = richInfinite.balance) := by
  obtain ⟨h1, h2, _⟩ := verification_payment_row_always_created dbC2 envA "i1"
    richInfinite rfl rfl (Or.inl rfl)
  exact ⟨rfl, rfl, rfl, h1, h2 rfl⟩


/-- Inserting a purchase row does not change user lookups. -/
theorem getUser_createPurchase (db : Db) (env : Env) (b s l : String)
    (a f : Money) (x : String) :
    getUser (createPurchase db env b s l a f).1 x = getUser db x := rfl

/-- Looking up the updated id after a balance update. -/
theorem getUser_updateUserBalance_self (db : Db) (id : String) (v : Money) :
    getUser (updateUserBalance db id v) id
      = (getUser db id).map (fun u => { u with balance := v }) := by
  unfold updateUserBalance
  exact getUser_updateUserRow_self db id _ (fun u => rfl)

/-- Looking up another id after a balance update. -/
theorem getUser_updateUserBalance_ne (db : Db) (id x : String) (v : Money)
    (hx : x ≠ id) :
    getUser (updateUserBalance db id v) x = getUser db x := by
  unfold updateUserBalance
  exact getUser_updateUserRow_ne db id x _ (fun u => rfl) hx

/-- Looking up the updated id after a lifetime-earnings update. -/
theorem getUser_setEarnings_self (db : Db) (id : String) (c : Money) :
    getUser (updateUserRow db id
        (fun u => { u with totalEarnings := c })) id
      = (getUser db id).map (fun u => { u with totalEarnings := c }) :=
  getUser_updateUserRow_self db id _ (fun _ => rfl)

/-- Looking up another id after a lifetime-earnings update. -/
theorem getUser_setEarnings_ne (db : Db) (id x : String) (c : Money)
    (hx : x ≠ id) :
    getUser (updateUserRow db id
        (fun u => { u with totalEarnings := c })) x = getUser db x :=
  getUser_updateUserRow_ne db id x _ (fun _ => rfl) hx

/-- The buyer's debit in `purchaseSuccess` does not change lookups of
other ids. -/
theorem purchaseSuccess_debit_getUser (db : Db) (buyer : Account)
    (listing : MarketplaceListing) (x : String) (hx : x ≠ buyer.id) :
    getUser (if !buyer.hasInfiniteBalance then
        updateUserBalance db buyer.id (toFixed2 (buyer.balance - listing.price))
      else db) x = getUser db x := by
  by_cases hib : buyer.hasInfiniteBalance
  · rw [if_neg (by simp [hib])]
  · rw [if_pos (by simp [hib])]
    exact getUser_updateUserBalance_ne db buyer.id x _ hx

/-- Looking up the buyer after the purchase success path. -/
theorem purchaseSuccess_getUser_buyer (db : Db) (env : Env)
    (buyerId : String) (listing : MarketplaceListing) (buyer : Account)
    (hb : getUser db buyerId = some buyer)
    (hne : listing.sellerId ≠ buyerId) :
    getUser (purchaseSuccess db env buyer listing).1 buyerId
      = some { buyer with
          balance := if buyer.hasInfiniteBalance then buyer.balance
                     else toFixed2 (buyer.balance - listing.price) } := by
  have hbid : buyer.id = buyerId := getUser_id db buyerId buyer hb
  have hb' : getUser db buyer.id = some buyer := by rw [hbid]; exact hb
  have hdb1 : getUser (if !buyer.hasInfiniteBalance then
      updateUserBalance db buyer.id (toFixed2 (buyer.balance - listing.price))
    else db) buyerId
      = some { buyer with
          balance := if buyer.hasInfiniteBalance then buyer.balance
                     else toFixed2 (buyer.balance - listing.price) } := by
    by_cases hib : buyer.hasInfiniteBalance
    · rw [if_neg (by simp [hib]), if_pos hib, hb]
    · rw [if_pos (by simp [hib]), if_neg hib, ← hbid,
        getUser_updateUserBalance_self, hb']
      rfl
  unfold purchaseSuccess
  dsimp only
  rw [getUser_incrementListingDownloads, getUser_createPurchase]
  cases hs : getUser (if !buyer.hasInfiniteBalance then
      updateUserBalance db buyer.id (toFixed2 (buyer.balance - listing.price))
    else db) listing.sellerId with
  | none =>
    dsimp only
    exact hdb1
  | some seller =>
    dsimp only
    have hsid : seller.id = listing.sellerId := getUser_id _ _ _ hs
    have hbx : buyerId ≠ seller.id := by
      rw [hsid]; exact fun h => hne h.symm
    by_cases hsb : seller.hasInfiniteBalance
    · have hcond : ¬((!seller.hasInfiniteBalance) = true) := by simp [hsb]
      rw [if_neg hcond]
      exact hdb1
    · have hcond : (!seller.hasInfiniteBalance) = true := by simp [hsb]
      rw [if_pos hcond, getUser_setEarnings_ne _ _ _ _ hbx,
        getUser_updateUserBalance_ne _ _ _ _ hbx]
      exact hdb1

/-- Looking up the seller after the purchase success path. -/
theorem purchaseSuccess_getUser_seller (db : Db) (env : Env)
    (buyerId : String) (listing : MarketplaceListing) (buyer seller : Account)
    (hb : getUser db buyerId = some buyer)
    (hs : getUser db listing.sellerId = some seller)
    (hne : listing.sellerId ≠ buyerId) :
    getUser (purchaseSuccess db env buyer listing).1 listing.sellerId
      = some (if seller.hasInfiniteBalance then seller
              else { seller with
                  balance := toFixed2 (seller.balance + listing.price),
                  totalEarnings :=
                    toFixed2 (seller.totalEarnings + listing.price) }) := by
  have hbid : buyer.id = buyerId := getUser_id db buyerId buyer hb
  have hsid : seller.id = listing.sellerId := getUser_id db _ seller hs
  have hdb1 : getUser (if !buyer.hasInfiniteBalance then
      updateUserBalance db buyer.id (toFixed2 (buyer.balance - listing.price))
    else db) listing.sellerId = some seller := by
    rw [purchaseSuccess_debit_getUser db buyer listing listing.sellerId
      (by rw [hbid]; exact hne)]
    exact hs
  have hdb1' : getUser (if !buyer.hasInfiniteBalance then
      updateUserBalance db buyer.id (toFixed2 (buyer.balance - listing.price))
    else db) seller.id = some seller := by
    rw [hsid]; exact hdb1
  unfold purchaseSuccess
  dsimp only
  rw [getUser_incrementListingDownloads, getUser_createPurchase, hdb1]
  dsimp only
  by_cases hsb : seller.hasInfiniteBalance
  · have hcond : ¬((!seller.hasInfiniteBalance) = true) := by simp [hsb]
    rw [if_neg hcond, if_pos hsb]
    exact hdb1
  · have hcond : (!seller.hasInfiniteBalance) = true := by simp [hsb]
    rw [if_pos hcond, if_neg hsb, ← hsid,
      getUser_setEarnings_self, getUser_updateUserBalance_self, hdb1']
    rfl

/-- A lookup of neither the buyer nor the seller id is unchanged by the
purchase success path. -/
theorem purchaseSuccess_getUser_other (db : Db) (env : Env)
    (buyer : Account) (listing : MarketplaceListing) (x : String)
    (hx1 : x ≠ buyer.id) (hx2 : x ≠ listing.sellerId) :
    getUser (purchaseSuccess db env buyer listing).1 x = getUser db x := by
  have hdb1 := purchaseSuccess_debit_getUser db buyer listing x hx1
  unfold purchaseSuccess
  dsimp only
  rw [getUser_incrementListingDownloads, getUser_createPurchase]
  cases hs : getUser (if !buyer.hasInfiniteBalance then
      updateUserBalance db buyer.id (toFixed2 (buyer.balance - listing.price))
    else db) listing.sellerId with
  | none =>
    dsimp only
    exact hdb1
  | some seller =>
    dsimp only
    have hsid : seller.id = listing.sellerId := getUser_id _ _ _ hs
    have hxs : x ≠ seller.id := by rw [hsid]; exact hx2
    by_cases hsb : seller.hasInfiniteBalance
    · have hcond : ¬((!seller.hasInfiniteBalance) = true) := by simp [hsb]
      rw [if_neg hcond]
      exact hdb1
    · have hcond : (!seller.hasInfiniteBalance) = true := by simp [hsb]
      rw [if_pos hcond, getUser_setEarnings_ne _ _ _ _ hxs,
        getUser_updateUserBalance_ne _ _ _ _ hxs]
      exact hdb1

/-- The success branch of the purchase endpoint, reached exactly when the
guards pass. -/
theorem purchaseListing_success_eq (db : Db) (env : Env)
    (buyerId listingId : String) (listing : MarketplaceListing)
    (buyer : Account)
    (hl : getListing db listingId = some listing)
    (hb : getUser db buyerId = some buyer)
    (hnp : hasPurchased db buyerId listingId = false)
    (hne : listing.sellerId ≠ buyerId)
    (hguard : (!buyer.hasInfiniteBalance
        && decide (buyer.balance < listing.price)) = false) :
    purchaseListing db env buyerId listingId
      = ((purchaseSuccess db env buyer listing).1,
         Outcome.ok (purchaseSuccess db env buyer listing).2) := by
  unfold purchaseListing
  rw [hl, hb]
  dsimp only
  rw [if_neg (by simp [hnp]), if_neg (by simp [hne]),
    if_neg (by simp [hguard])]

/-! ## Claim C1 -/

/-- Claim C1: a successful marketplace purchase debits the buyer by
exactly the listing price (unless the buyer has unlimited funds), credits
the seller's balance and lifetime earnings by exactly the price (unless
the seller has unlimited funds), and appends exactly one purchase row
referencing the buyer, the seller and that amount. -/
theorem purchase_success_transfer (db : Db) (env : Env)
    (buyerId listingId : String) (listing : MarketplaceListing)
    (buyer seller : Account)
    (hl : getListing db listingId = some listing)
    (hb : getUser db buyerId = some buyer)
    (hs : getUser db listing.sellerId = some seller)
    (hne : listing.sellerId ≠ buyerId)
    (hnp : hasPurchased db buyerId listingId = false)
    (hpos : 0 < listing.price)
    (hfunds : buyer.hasInfiniteBalance = true ∨ listing.price ≤ buyer.balance)
    (hcb : isCents buyer.balance) (hcp : isCents listing.price)
    (hcs : isCents seller.balance) (hce : isCents seller.totalEarnings) :
    (purchaseListing db env buyerId listingId).2
      = Outcome.ok { buyerId := buyer.id, sellerId := listing.sellerId,
                     listingId := listing.id, amount := listing.price,
                     platformFee := 0, transactionId := env.freshTxnId } ∧
    (purchaseListing db env buyerId listingId).1.purchases
      = db.purchases
        ++ [{ buyerId := buyer.id, sellerId := listing.sellerId,
              listingId := listing.id, amount := listing.price,
              platformFee := 0, transactionId := env.freshTxnId }] ∧
    getUser (purchaseListing db env buyerId listingId).1 buyerId
      = some { buyer with
          balance := if buyer.hasInfiniteBalance then buyer.balance
                     else buyer.balance - listing.price } ∧
    getUser (purchaseListing db env buyerId listingId).1 listing.sellerId
      = some (if seller.hasInfiniteBalance then seller
              else { seller with
                  balance := seller.balance + listing.price,
                  totalEarnings :=
                    seller.totalEarnings + listing.price }) := by
  have hguard : (!buyer.hasInfiniteBalance
      && decide (buyer.balance < listing.price)) = false := by
    rcases hfunds with h | h
    · simp [h]
    · simp [not_lt.mpr h]
  have heq := purchaseListing_success_eq db env buyerId listingId listing
    buyer hl hb hnp hne hguard
  have hsub : toFixed2 (buyer.balance - listing.price)
      = buyer.balance - listing.price :=
    toFixed2_eq_self _ (isCents_sub _ _ hcb hcp)
  have haddb : toFixed2 (seller.balance + listing.price)
      = seller.balance + listing.price :=
    toFixed2_eq_self _ (isCents_add _ _ hcs hcp)
  have hadde : toFixed2 (seller.totalEarnings + listing.price)
      = seller.totalEarnings + listing.price :=
    toFixed2_eq_self _ (isCents_add _ _ hce hcp)
  refine ⟨?_, ?_, ?_, ?_⟩
  · rw [heq]
    dsimp only
    rw [purchaseSuccess_snd]
  · rw [heq]
    dsimp only
    rw [purchaseSuccess_purchases, purchaseSuccess_snd]
  · rw [heq]
    dsimp only
    rw [purchaseSuccess_getUser_buyer db env buyerId listing buyer hb hne,
      hsub]
  · rw [heq]
    dsimp only
    rw [purchaseSuccess_getUser_seller db env buyerId listing buyer seller
      hb hs hne, haddb, hadde]

/-- A buyer with balance 2500 for the concrete transfer scenario. -/
def buyerRich : Account :=
  { id := "b3", balance := 2500, hasInfiniteBalance := false,
    totalEarnings := 0, isVerified := false, verifiedAt := none,
    verificationExpiry := none, verificationGrantedBy := none }

/-- A listing priced 500 sold by `sellerS2`. -/
def listingC1 : MarketplaceListing :=
  { id := "l3", sellerId := "s2", price := 500, downloads := 7 }

/-- Database for the concrete transfer scenario. -/
def dbC1 : Db :=
  { users := [buyerRich, sellerS2], listings := [listingC1],
    purchases := [], verificationPayments := [], moneyGifts := [] }

/-- Witness for C1: buying a 500-priced listing takes the buyer from 2500
to 2000, the seller's balance from 20 to 520, the seller's lifetime
earnings from 5 to 505, and appends exactly one purchase row. -/
theorem purchase_success_transfer_witness :
    getListing dbC1 "l3" = some listingC1 ∧
    getUser dbC1 "b3" = some buyerRich ∧
    getUser dbC1 "s2" = some sellerS2 ∧
    listingC1.sellerId ≠ "b3" ∧
    hasPurchased dbC1 "b3" "l3" = false ∧
    (0 : Money) < listingC1.price ∧
    listingC1.price ≤ buyerRich.balance ∧
    (purchaseListing dbC1 envA "b3" "l3").1.purchases
      = [{ buyerId := "b3", sellerId := "s2", listingId := "l3",
           amount := 500, platformFee := 0,
           transactionId := envA.freshTxnId }] ∧
    (∃ v, getUser (purchaseListing dbC1 envA "b3" "l3").1 "b3" = some v ∧
      v.balance = 2000) ∧
    (∃ w, getUser (purchaseListing dbC1 envA "b3" "l3").1 "s2" = some w ∧
      w.balance = 520 ∧ w.totalEarnings = 505) := by
  obtain ⟨h1, h2, h3, h4⟩ := purchase_success_transfer dbC1 envA "b3" "l3"
    listingC1 buyerRich sellerS2 rfl rfl rfl (by decide) rfl
    (by norm_num [listingC1]) (Or.inr (by norm_num [listingC1, buyerRich]))
    ((isCents_iff _).mpr ⟨250000, by norm_num [buyerRich]⟩)
    ((isCents_iff _).mpr ⟨50000, by norm_num [listingC1]⟩)
    ((isCents_iff _).mpr ⟨2000, by norm_num [sellerS2]⟩)
    ((isCents_iff _).mpr ⟨500, by norm_num [sellerS2]⟩)
  refine ⟨rfl, rfl, rfl, by decide, rfl, by norm_num [listingC1],
    by norm_num [listingC1, buyerRich], ?_, ?_, ?_⟩
  · rw [h2]
    rfl
  · refine ⟨_, h3, ?_⟩
    norm_num [buyerRich, listingC1]
  · refine ⟨_, h4, ?_, ?_⟩ <;> norm_num [sellerS2, listingC1]

/-! ## Claim C8: the balance invariant -/

/-- Every stored balance is a non-negative exact two-decimal amount. -/
def balancesOk (db : Db) : Prop :=
  ∀ u ∈ db.users, 0 ≤ u.balance ∧ isCents u.balance

/-- Every stored listing price is non-negative.  The code does NOT
enforce this: `POST /api/marketplace` stores the request's `price`
without validation (`insertMarketplaceListingSchema` is imported but
never applied to the body) and the `decimal(10,2)` column admits
negatives.  It is the extra precondition under which the purchase flow
preserves the balance invariant; a negative-priced listing defeats it. -/
def listingPricesOk (db : Db) : Prop :=
  ∀ l ∈ db.listings, 0 ≤ l.price

/-- A row update whose result is non-negative and exact keeps the balance
invariant. -/
theorem balancesOk_updateUserRow (db : Db) (id : String)
    (f : Account → Account) (h : balancesOk db)
    (hf : ∀ u, u ∈ db.users → 0 ≤ u.balance → isCents u.balance →
      0 ≤ (f u).balance ∧ isCents (f u).balance) :
    balancesOk (updateUserRow db id f) := by
  intro v hv
  rw [updateUserRow] at hv
  dsimp only at hv
  rw [List.mem_map] at hv
  obtain ⟨u, hu, rfl⟩ := hv
  by_cases hid : (u.id == id) = true
  · rw [if_pos hid]
    exact hf u hu (h u hu).1 (h u hu).2
  · rw [if_neg hid]
    exact h u hu

/-- `getUser` only reads the `users` table. -/
theorem getUser_eq_of_users_eq (db1 db2 : Db) (h : db1.users = db2.users)
    (x : String) : getUser db1 x = getUser db2 x := by
  unfold getUser
  rw [h]

/-- Every run of the verification endpoint either rejects (state
unchanged) or runs the success path with the guards known to have
passed. -/
theorem verificationPurchase_cases (db : Db) (env : Env) (uid : String) :
    (verificationPurchase db env uid).1 = db ∨
    ∃ u, getUser db uid = some u ∧ u.isVerified = false ∧
      (!u.hasInfiniteBalance && decide (u.balance < (5000 : Money))) = false ∧
      (verificationPurchase db env uid).1 = (verificationSuccess db env u).1 := by
  unfold verificationPurchase
  cases hu : getUser db uid with
  | none => exact Or.inl rfl
  | some u =>
    dsimp only
    by_cases hv : u.isVerified = true
    · rw [if_pos hv]
      exact Or.inl rfl
    · have hv' : u.isVerified = false := by simpa using hv
      rw [if_neg hv]
      by_cases hg : (!u.hasInfiniteBalance
          && decide (u.balance < (5000 : Money))) = true
      · rw [if_pos hg]
        exact Or.inl rfl
      · rw [if_neg hg]
        exact Or.inr ⟨u, rfl, hv', by simpa using hg, rfl⟩

/-- Every run of the gift endpoint either rejects (state unchanged) or
runs the success path for a positive amount and an existing recipient. -/
theorem giftMoney_cases (db : Db) (adminId uid : String) (amount : Money)
    (note : String) :
    (giftMoney db adminId uid amount note).1 = db ∨
    ∃ r, getUser db uid = some r ∧ 0 < amount ∧
      (giftMoney db adminId uid amount note).1
        = (giftSuccess db adminId uid r amount note).1 := by
  unfold giftMoney
  by_cases hg : (uid == "" || decide (amount ≤ 0)) = true
  · rw [if_pos hg]
    exact Or.inl rfl
  · rw [if_neg hg]
    have hparts : ¬ uid = "" ∧ 0 < amount := by simpa using hg
    have hpos : 0 < amount := hparts.2
    cases hr : getUser db uid with
    | none => exact Or.inl rfl
    | some r => exact Or.inr ⟨r, rfl, hpos, rfl⟩

/-- The purchase success path keeps the balance invariant. -/
theorem balancesOk_purchaseSuccess (db : Db) (env : Env) (buyer : Account)
    (listing : MarketplaceListing)
    (hbal : balancesOk db) (hprice : 0 ≤ listing.price)
    (hguard : (!buyer.hasInfiniteBalance
        && decide (buyer.balance < listing.price)) = false) :
    balancesOk (purchaseSuccess db env buyer listing).1 := by
  have h1 : balancesOk (if !buyer.hasInfiniteBalance then
      updateUserBalance db buyer.id (toFixed2 (buyer.balance - listing.price))
    else db) := by
    by_cases hib : buyer.hasInfiniteBalance
    · rw [if_neg (by simp [hib])]
      exact hbal
    · rw [if_pos (by simp [hib])]
      have hle : listing.price ≤ buyer.balance := by
        have hdec : decide (buyer.balance < listing.price) = false := by
          simpa [hib] using hguard
        exact not_lt.mp (of_decide_eq_false hdec)
      refine balancesOk_updateUserRow db _ _ hbal (fun u hu h0 hc => ?_)
      exact ⟨toFixed2_nonneg _ (by linarith), isCents_toFixed2 _⟩
  unfold purchaseSuccess
  dsimp only
  cases hs : getUser (if !buyer.hasInfiniteBalance then
      updateUserBalance db buyer.id (toFixed2 (buyer.balance - listing.price))
    else db) listing.sellerId with
  | none =>
    dsimp only
    intro u hu
    exact h1 u (by simpa using hu)
  | some seller =>
    dsimp only
    have hsmem := getUser_mem _ _ _ hs
    have hs0 : 0 ≤ seller.balance := (h1 seller hsmem).1
    by_cases hsb : seller.hasInfiniteBalance
    · have hcond : ¬((!seller.hasInfiniteBalance) = true) := by simp [hsb]
      rw [if_neg hcond]
      intro u hu
      exact h1 u (by simpa using hu)
    · have hcond : (!seller.hasInfiniteBalance) = true := by simp [hsb]
      rw [if_pos hcond]
      have h2 : balancesOk (updateUserBalance (if !buyer.hasInfiniteBalance then
          updateUserBalance db buyer.id (toFixed2 (buyer.balance - listing.price))
        else db) seller.id (toFixed2 (seller.balance + listing.price))) := by
        refine balancesOk_updateUserRow _ _ _ h1 (fun u hu h0 hc => ?_)
        exact ⟨toFixed2_nonneg _ (by linarith), isCents_toFixed2 _⟩
      have h3 : balancesOk (updateUserRow (updateUserBalance
          (if !buyer.hasInfiniteBalance then
            updateUserBalance db buyer.id (toFixed2 (buyer.balance - listing.price))
          else db) seller.id (toFixed2 (seller.balance + listing.price)))
          seller.id (fun u =>
            { u with totalEarnings :=
                toFixed2 (seller.totalEarnings + listing.price) })) :=
        balancesOk_updateUserRow _ _ _ h2 (fun u hu h0 hc => ⟨h0, hc⟩)
      intro u hu
      exact h3 u (by simpa using hu)

/-- The verification success path keeps the balance invariant. -/
theorem balancesOk_verificationSuccess (db : Db) (env : Env) (u : Account)
    (hbal : balancesOk db)
    (hguard : (!u.hasInfiniteBalance
        && decide (u.balance < (5000 : Money))) = false) :
    balancesOk (verificationSuccess db env u).1 := by
  have h1 : balancesOk (if !u.hasInfiniteBalance then
      updateUserBalance db u.id (toFixed2 (u.balance - 5000)) else db) := by
    by_cases hib : u.hasInfiniteBalance
    · rw [if_neg (by simp [hib])]
      exact hbal
    · rw [if_pos (by simp [hib])]
      have hle : (5000 : Money) ≤ u.balance := by
        have hdec : decide (u.balance < (5000 : Money)) = false := by
          simpa [hib] using hguard
        exact not_lt.mp (of_decide_eq_false hdec)
      refine balancesOk_updateUserRow db _ _ hbal (fun w hw h0 hc => ?_)
      exact ⟨toFixed2_nonneg _ (by linarith), isCents_toFixed2 _⟩
  have h2 : balancesOk (updateUserRow { (if !u.hasInfiniteBalance then
      updateUserBalance db u.id (toFixed2 (u.balance - 5000)) else db) with
        verificationPayments := (if !u.hasInfiniteBalance then
          updateUserBalance db u.id (toFixed2 (u.balance - 5000))
        else db).verificationPayments
          ++ [{ userId := u.id, periodStart := env.now,
                periodEnd := env.addOneMonth env.now, amount := 5000,
                status := "active" }] } u.id (fun w =>
      { w with isVerified := true, verifiedAt := some env.now,
               verificationExpiry := some (env.addOneMonth env.now) })) := by
    refine balancesOk_updateUserRow _ _ _ (fun w hw => h1 w hw)
      (fun w hw h0 hc => ⟨h0, hc⟩)
  intro w hw
  exact h2 w hw

/-- The gift success path keeps the balance invariant. -/
theorem balancesOk_giftSuccess (db : Db) (adminId uid : String)
    (r : Account) (amount : Money) (note : String)
    (hbal : balancesOk db) (hpos : 0 < amount)
    (hr : getUser db uid = some r) :
    balancesOk (giftSuccess db adminId uid r amount note).1 := by
  have hr0 : 0 ≤ r.balance := (hbal r (getUser_mem db uid r hr)).1
  have h1 : balancesOk (if !r.hasInfiniteBalance then
      updateUserBalance db uid (toFixed2 (r.balance + amount)) else db) := by
    by_cases hib : r.hasInfiniteBalance
    · rw [if_neg (by simp [hib])]
      exact hbal
    · rw [if_pos (by simp [hib])]
      refine balancesOk_updateUserRow db _ _ hbal (fun w hw h0 hc => ?_)
      exact ⟨toFixed2_nonneg _ (by linarith), isCents_toFixed2 _⟩
  intro w hw
  exact h1 w hw

/-- A lookup of an id other than the subscriber's is unchanged by the
verification success path. -/
theorem verificationSuccess_getUser_other (db : Db) (env : Env)
    (u : Account) (x : String) (hx : x ≠ u.id) :
    getUser (verificationSuccess db env u).1 x = getUser db x := by
  unfold verificationSuccess
  dsimp only
  rw [createVerificationPayment_getUser]
  have hdb1 : getUser (if !u.hasInfiniteBalance then
      updateUserBalance db u.id (toFixed2 (u.balance - 5000)) else db) x
      = getUser db x := by
    by_cases hib : u.hasInfiniteBalance
    · rw [if_neg (by simp [hib])]
    · rw [if_pos (by simp [hib])]
      exact getUser_updateUserBalance_ne db u.id x _ hx
  rw [hdb1]
  cases hg : getUser db x with
  | none => rfl
  | some w =>
    have hwid : w.id = x := getUser_id db x w hg
    simp [hwid, hx]

/-- Looking up the recipient after the gift success path. -/
theorem giftSuccess_getUser_self (db : Db) (adminId uid : String)
    (r : Account) (amount : Money) (note : String)
    (hr : getUser db uid = some r) :
    getUser (giftSuccess db adminId uid r amount note).1 uid
      = some { r with balance := if r.hasInfiniteBalance then r.balance
                                 else toFixed2 (r.balance + amount) } := by
  have hstep : getUser (giftSuccess db adminId uid r amount note).1 uid
      = getUser (if !r.hasInfiniteBalance then
          updateUserBalance db uid (toFixed2 (r.balance + amount))
        else db) uid :=
    getUser_eq_of_users_eq _ _ rfl uid
  rw [hstep]
  by_cases hib : r.hasInfiniteBalance
  · rw [if_neg (by simp [hib]), if_pos hib, hr]
  · rw [if_pos (by simp [hib]), if_neg hib,
      getUser_updateUserBalance_self, hr]
    rfl

/-- A lookup of an id other than the recipient's is unchanged by the gift
success path. -/
theorem giftSuccess_getUser_other (db : Db) (adminId uid : String)
    (r : Account) (amount : Money) (note : String) (x : String)
    (hx : x ≠ uid) :
    getUser (giftSuccess db adminId uid r amount note).1 x = getUser db x := by
  have hstep : getUser (giftSuccess db adminId uid r amount note).1 x
      = getUser (if !r.hasInfiniteBalance then
          updateUserBalance db uid (toFixed2 (r.balance + amount))
        else db) x :=
    getUser_eq_of_users_eq _ _ rfl x
  rw [hstep]
  by_cases hib : r.hasInfiniteBalance
  · rw [if_neg (by simp [hib])]
  · rw [if_pos (by simp [hib])]
    exact getUser_updateUserBalance_ne db uid x _ hx

/-- An unlimited-funds account's balance is untouched by the purchase
success path. -/
theorem purchaseSuccess_unlimited_unchanged (db : Db) (env : Env)
    (buyerId : String) (listing : MarketplaceListing) (buyer : Account)
    (hb : getUser db buyerId = some buyer)
    (hne : listing.sellerId ≠ buyerId) :
    ∀ x w, getUser db x = some w → w.hasInfiniteBalance = true →
      ∃ v, getUser (purchaseSuccess db env buyer listing).1 x = some v ∧
        v.balance = w.balance := by
  intro x w hw winf
  have hbid : buyer.id = buyerId := getUser_id db buyerId buyer hb
  by_cases hx1 : x = buyerId
  · subst hx1
    have hwb : w = buyer := by
      rw [hw] at hb
      exact Option.some.inj hb
    subst hwb
    refine ⟨_, purchaseSuccess_getUser_buyer db env x listing w hw hne, ?_⟩
    simp [winf]
  · by_cases hx2 : x = listing.sellerId
    · subst hx2
      refine ⟨_, purchaseSuccess_getUser_seller db env buyerId listing
        buyer w hb hw hne, ?_⟩
      simp [winf]
    · refine ⟨w, ?_, rfl⟩
      rw [purchaseSuccess_getUser_other db env buyer listing x
        (by rw [hbid]; exact hx1) hx2]
      exact hw

/-- An unlimited-funds account's balance is untouched by the verification
success path. -/
theorem verificationSuccess_unlimited_unchanged (db : Db) (env : Env)
    (uid : String) (u : Account) (hu : getUser db uid = some u) :
    ∀ x w, getUser db x = some w → w.hasInfiniteBalance = true →
      ∃ v, getUser (verificationSuccess db env u).1 x = some v ∧
        v.balance = w.balance := by
  intro x w hw winf
  have huid : u.id = uid := getUser_id db uid u hu
  by_cases hx : x = uid
  · subst hx
    have hwu : w = u := by
      rw [hw] at hu
      exact Option.some.inj hu
    subst hwu
    refine ⟨_, verificationSuccess_getUser_self db env w x hw, ?_⟩
    simp [winf]
  · refine ⟨w, ?_, rfl⟩
    rw [verificationSuccess_getUser_other db env u x (by rw [huid]; exact hx)]
    exact hw

/-- An unlimited-funds account's balance is untouched by the gift success
path. -/
theorem giftSuccess_unlimited_unchanged (db : Db) (adminId uid : String)
    (r : Account) (amount : Money) (note : String)
    (hr : getUser db uid = some r) :
    ∀ x w, getUser db x = some w → w.hasInfiniteBalance = true →
      ∃ v, getUser (giftSuccess db adminId uid r amount note).1 x = some v ∧
        v.balance = w.balance := by
  intro x w hw winf
  by_cases hx : x = uid
  · subst hx
    have hwr : w = r := by
      rw [hw] at hr
      exact Option.some.inj hr
    subst hwr
    refine ⟨_, giftSuccess_getUser_self db adminId x w amount note hw, ?_⟩
    simp [winf]
  · refine ⟨w, ?_, rfl⟩
    rw [giftSuccess_getUser_other db adminId uid r amount note x hx]
    exact hw

/-- Claim C8 (amended): provided every stored listing price is
non-negative, each balance-mutating operation — marketplace purchase,
verification purchase, admin money gift — preserves the invariant that
every account balance is a non-negative exact two-decimal amount, and
leaves the balance of every unlimited-funds account unchanged (in
particular never decrements it).  The price proviso is genuinely needed:
the listing-creation endpoint performs no price validation, and buying a
negative-priced listing stores a negative seller balance (see the
counterexample at the end of the file). -/
theorem balance_invariant_preserved (db : Db) (env : Env)
    (buyerId listingId vuid adminId giftTo : String)
    (amount : Money) (note : String)
    (hbal : balancesOk db) (hpr : listingPricesOk db) :
    (balancesOk (purchaseListing db env buyerId listingId).1 ∧
      ∀ x w, getUser db x = some w → w.hasInfiniteBalance = true →
        ∃ v, getUser (purchaseListing db env buyerId listingId).1 x = some v ∧
          v.balance = w.balance) ∧
    (balancesOk (verificationPurchase db env vuid).1 ∧
      ∀ x w, getUser db x = some w → w.hasInfiniteBalance = true →
        ∃ v, getUser (verificationPurchase db env vuid).1 x = some v ∧
          v.balance = w.balance) ∧
    (balancesOk (giftMoney db adminId giftTo amount note).1 ∧
      ∀ x w, getUser db x = some w → w.hasInfiniteBalance = true →
        ∃ v, getUser (giftMoney db adminId giftTo amount note).1 x = some v ∧
          v.balance = w.balance) := by
  refine ⟨?_, ?_, ?_⟩
  · rcases purchaseListing_cases db env buyerId listingId with
      h | ⟨listing, buyer, hl, hb, hnp, hne, hguard, h⟩
    · rw [h]
      exact ⟨hbal, fun x w hw _ => ⟨w, hw, rfl⟩⟩
    · refine ⟨?_, ?_⟩
      · rw [h]
        exact balancesOk_purchaseSuccess db env buyer listing hbal
          (hpr listing (getListing_mem db listingId listing hl)) hguard
      · intro x w hw winf
        rw [h]
        exact purchaseSuccess_unlimited_unchanged db env buyerId listing
          buyer hb hne x w hw winf
  · rcases verificationPurchase_cases db env vuid with
      h | ⟨u, hu, hnv, hguard, h⟩
    · rw [h]
      exact ⟨hbal, fun x w hw _ => ⟨w, hw, rfl⟩⟩
    · refine ⟨?_, ?_⟩
      · rw [h]
        exact balancesOk_verificationSuccess db env u hbal hguard
      · intro x w hw winf
        rw [h]
        exact verificationSuccess_unlimited_unchanged db env vuid u hu
          x w hw winf
  · rcases giftMoney_cases db adminId giftTo amount note with
      h | ⟨r, hr, hpos2, h⟩
    · rw [h]
      exact ⟨hbal, fun x w hw _ => ⟨w, hw, rfl⟩⟩
    · refine ⟨?_, ?_⟩
      · rw [h]
        exact balancesOk_giftSuccess db adminId giftTo r amount note
          hbal hpos2 hr
      · intro x w hw winf
        rw [h]
        exact giftSuccess_unlimited_unchanged db adminId giftTo r amount
          note hr x w hw winf

/-- Witness for C8 on a concrete database, running all three endpoints. -/
theorem balance_invariant_preserved_witness :
    balancesOk dbC1 ∧ listingPricesOk dbC1 ∧
    balancesOk (purchaseListing dbC1 envA "b3" "l3").1 ∧
    balancesOk (verificationPurchase dbC1 envA "b3").1 ∧
    balancesOk (giftMoney dbC1 "b3" "s2" 100 "bonus").1 := by
  have hbalC : balancesOk dbC1 := by
    intro u hu
    rcases (by simpa [dbC1] using hu : u = buyerRich ∨ u = sellerS2) with
      rfl | rfl
    · exact ⟨by norm_num [buyerRich],
        (isCents_iff _).mpr ⟨250000, by norm_num [buyerRich]⟩⟩
    · exact ⟨by norm_num [sellerS2],
        (isCents_iff _).mpr ⟨2000, by norm_num [sellerS2]⟩⟩
  have hprC : listingPricesOk dbC1 := by
    intro l hl
    rcases (by simpa [dbC1] using hl : l = listingC1) with rfl
    norm_num [listingC1]
  obtain ⟨⟨p1, _⟩, ⟨v1, _⟩, ⟨g1, _⟩⟩ := balance_invariant_preserved dbC1 envA
    "b3" "l3" "b3" "b3" "s2" 100 "bonus" hbalC hprC
  exact ⟨hbalC, hprC, p1, v1, g1⟩

/-- A listing with a negative price.  Nothing in the code prevents this
state: `POST /api/marketplace` (storage.ts:1034-1064) passes the request
body's `price` straight to the INSERT with no validation, and the
`decimal(10,2)` column admits negative values. -/
def listingNeg : MarketplaceListing :=
  { id := "ln", sellerId := "s2n", price := -50, downloads := 0 }

/-- The buyer of the negative-priced listing. -/
def buyerNeg : Account :=
  { id := "bn", balance := 10, hasInfiniteBalance := false, totalEarnings := 0,
    isVerified := false, verifiedAt := none, verificationExpiry := none,
    verificationGrantedBy := none }

/-- The seller of the negative-priced listing, with balance 20. -/
def sellerNeg : Account :=
  { id := "s2n", balance := 20, hasInfiniteBalance := false, totalEarnings := 5,
    isVerified := false, verifiedAt := none, verificationExpiry := none,
    verificationGrantedBy := none }

/-- A database satisfying the balance invariant but holding the
negative-priced listing. -/
def dbNeg : Db :=
  { users := [buyerNeg, sellerNeg], listings := [listingNeg],
    purchases := [], verificationPayments := [], moneyGifts := [] }

/-- Claim C8 counterexample: without the non-negative-price proviso the
claim is false on a reachable state.  `dbNeg` satisfies the balance
invariant, yet purchasing the −50-priced listing succeeds (the
insufficient-balance guard compares 10 < −50, which is false) and stores
the seller's balance as 20 + (−50) = −30 — negative, so the marketplace
purchase does not preserve the invariant the claim states. -/
theorem negative_price_breaks_balances :
    balancesOk dbNeg ∧
    (∃ w, getUser (purchaseListing dbNeg envA "bn" "ln").1 "s2n" = some w ∧
      w.balance = -30) ∧
    ¬ balancesOk (purchaseListing dbNeg envA "bn" "ln").1 := by
  have hbal : balancesOk dbNeg := by
    intro u hu
    rcases (by simpa [dbNeg] using hu : u = buyerNeg ∨ u = sellerNeg) with
      rfl | rfl
    · exact ⟨by norm_num [buyerNeg],
        (isCents_iff _).mpr ⟨1000, by norm_num [buyerNeg]⟩⟩
    · exact ⟨by norm_num [sellerNeg],
        (isCents_iff _).mpr ⟨2000, by norm_num [sellerNeg]⟩⟩
  have hguard : (!buyerNeg.hasInfiniteBalance
      && decide (buyerNeg.balance < listingNeg.price)) = false := by
    simp [buyerNeg, listingNeg]
    norm_num
  have heq := purchaseListing_success_eq dbNeg envA "bn" "ln" listingNeg
    buyerNeg rfl rfl rfl (by decide) hguard
  have hsell := purchaseSuccess_getUser_seller dbNeg envA "bn" listingNeg
    buyerNeg sellerNeg rfl rfl (by decide)
  have hvalbal : toFixed2 (sellerNeg.balance + listingNeg.price) = -30 := by
    norm_num [sellerNeg, listingNeg, toFixed2_def]
  have hw : getUser (purchaseListing dbNeg envA "bn" "ln").1 "s2n"
      = some { sellerNeg with
          balance := toFixed2 (sellerNeg.balance + listingNeg.price),
          totalEarnings :=
            toFixed2 (sellerNeg.totalEarnings + listingNeg.price) } := by
    rw [heq]
    dsimp only
    have hs2 := hsell
    rw [if_neg (by decide)] at hs2
    exact hs2
  refine ⟨hbal, ⟨_, hw, hvalbal⟩, ?_⟩
  intro hpost
  have hmem := getUser_mem _ _ _ hw
  have h0 : (0 : ℚ) ≤ -30 := by
    rw [← hvalbal]
    exact (hpost _ hmem).1
  norm_num at h0
